import Mathlib

/-!
Verification of the Sum-Arte transaction / budget-ledger core.

Shallow embedding of the Django backend (`Back/api`): the data model
(`models.py`), the business-control validators (`validators.py`), the
transaction / budget / rendition services (`services.py`) and the
update/destroy view logic (`views.py`).  Monetary amounts are Django
`DecimalField(decimal_places=2)` values; all arithmetic in the source goes
through `decimal.Decimal` (exact), so amounts are modelled as `Int`
(hundredths of a currency unit).  Rows of each table are modelled as lists
of records; Django's `save()` on a fetched row becomes an update-by-id on
the list, `objects.filter(...)` becomes `List.filter`, and raised business
exceptions become `Except.error` values.
-/

set_option linter.unusedVariables false

namespace SumArte

/-! ## Constants (`Back/api/constants.py`) -/

def ESTADO_PENDIENTE : String := "pendiente"

def ESTADO_APROBADO : String := "aprobado"

def ESTADO_RECHAZADO : String := "rechazado"

def TIPO_INGRESO : String := "ingreso"

def TIPO_EGRESO : String := "egreso"

/-- `ESTADOS_PROYECTO_BLOQUEADOS` (also hard-coded in
`validar_proyecto_no_bloqueado`). -/
def ESTADOS_PROYECTO_BLOQUEADOS : List String := ["en_rendicion", "cerrado", "completado"]

def ACCION_LOG_CREACION : String := "creacion"

def ACCION_LOG_DELETE : String := "eliminacion"

def ACCION_LOG_APROBACION : String := "aprobacion"

def ACCION_LOG_RECHAZO : String := "rechazo"

/-! ## Data model (`Back/api/models.py`) -/

/-- `Proyecto`: total budget, cached executed amount, lifecycle state. -/
structure Proyecto where
  id : Nat
  presupuesto_total : Int
  monto_ejecutado_proyecto : Int
  estado_proyecto : String
deriving DecidableEq, Repr

/-- `Item_Presupuestario`: assigned and (cached) executed amount, optional
category tag. -/
structure Item_Presupuestario where
  id : Nat
  proyecto : Nat
  monto_asignado_item : Int
  monto_ejecutado_item : Int
  categoria_item : Option String
deriving DecidableEq, Repr

/-- `Subitem_Presupuestario`: child of an `Item_Presupuestario`. -/
structure Subitem_Presupuestario where
  id : Nat
  item_presupuesto : Nat
  monto_asignado_subitem : Int
  monto_ejecutado_subitem : Int
  categoria_subitem : Option String
deriving DecidableEq, Repr

/-- `Transaccion`: foreign keys are stored as row ids; nullable foreign
keys / fields are `Option`. -/
structure Transaccion where
  id : Nat
  proyecto : Nat
  usuario : Nat
  proveedor : Nat
  monto_transaccion : Int
  fecha_registro : Int
  nro_documento : String
  tipo_doc_transaccion : String
  tipo_transaccion : String
  estado_transaccion : String
  fecha_aprobacion : Option Int
  usuario_aprobador : Option Nat
  item_presupuestario : Option Nat
  subitem_presupuestario : Option Nat
  categoria_gasto : Option String
  numero_cuenta_bancaria : Option String
  numero_operacion_bancaria : Option String
deriving DecidableEq, Repr

/-- `Evidencia` restricted to the fields the core reads: its id and the
soft-delete flag `eliminado`. -/
structure Evidencia where
  id : Nat
  eliminado : Bool
deriving DecidableEq, Repr

/-- `Transaccion_Evidencia`: join table between transactions and evidence. -/
structure Transaccion_Evidencia where
  transaccion : Nat
  evidencia : Nat
deriving DecidableEq, Repr

/-- `Log_transaccion`: audit-trail row.  `transaccion` is nullable
(`SET_NULL` on delete); the `transaccion_*` tombstone fields are populated
only by the delete view. -/
structure Log_transaccion where
  transaccion : Option Nat
  transaccion_id_eliminada : Option Nat
  transaccion_nro_documento : Option String
  transaccion_monto : Option Int
  proyecto : Option Nat
  usuario : Nat
  accion_realizada : String
deriving DecidableEq, Repr

/-- The database snapshot: one list of rows per table the core touches. -/
structure DB where
  proyectos : List Proyecto
  items : List Item_Presupuestario
  subitems : List Subitem_Presupuestario
  transacciones : List Transaccion
  evidencias : List Evidencia
  transaccion_evidencias : List Transaccion_Evidencia
  logs : List Log_transaccion
deriving DecidableEq, Repr

/-! ### Row lookup and update helpers

Django's `Model.objects.get(id=i)` / fetching a row through a foreign key is
`findBy`, and mutating a fetched row then calling `save()` is `updBy`. -/

def findBy {α : Type} (key : α → Nat) (i : Nat) (l : List α) : Option α :=
  l.find? (fun x => key x == i)

def updBy {α : Type} (key : α → Nat) (i : Nat) (f : α → α) (l : List α) : List α :=
  l.map (fun x => if key x = i then f x else x)

/-! ### Model methods -/

/-- `Item_Presupuestario.saldo_disponible` (property). -/
def Item_Presupuestario.saldo_disponible (it : Item_Presupuestario) : Int :=
  it.monto_asignado_item - it.monto_ejecutado_item

/-- `Item_Presupuestario.tiene_saldo_suficiente`. -/
def Item_Presupuestario.tiene_saldo_suficiente (it : Item_Presupuestario) (monto : Int) : Bool :=
  monto ≤ it.saldo_disponible

/-- `Subitem_Presupuestario.saldo_disponible` (property). -/
def Subitem_Presupuestario.saldo_disponible (s : Subitem_Presupuestario) : Int :=
  s.monto_asignado_subitem - s.monto_ejecutado_subitem

/-- `Subitem_Presupuestario.tiene_saldo_suficiente`. -/
def Subitem_Presupuestario.tiene_saldo_suficiente (s : Subitem_Presupuestario) (monto : Int) : Bool :=
  monto ≤ s.saldo_disponible

/-- `Transaccion.puede_editar`: only pending transactions may be edited. -/
def Transaccion.puede_editar (t : Transaccion) : Bool :=
  t.estado_transaccion == ESTADO_PENDIENTE

/-- `Transaccion.puede_aprobar`: not pending, or creator = approver, forbid
approval. -/
def Transaccion.puede_aprobar (t : Transaccion) (usuario : Nat) : Bool :=
  if t.estado_transaccion ≠ ESTADO_PENDIENTE then false
  else if t.usuario = usuario then false
  else true

/-! ## Errors (`Back/api/exceptions.py`)

Business exceptions carry their structured detail (the amounts / ids that
the source interpolates into the Spanish detail string). -/

/-- One finding of the pre-rendition integrity audit
(`validar_integridad_pre_rendicion`); the source renders each as a Spanish
message string, here kept structured. -/
inductive AuditFinding where
  | pendientes (n : Nat)
  | rechazadas (n : Nat)
  | sinEvidencia (transacciones : List Nat)
  | descuadre (monto_ejecutado monto_total_aprobado : Int)
deriving DecidableEq, Repr

inductive ApiError where
  | saldoInsuficiente (disponible requerido : Int)
  | transaccionDuplicada (existente : Nat)
  | categoriaNoCoincide
  | sinEvidencia
  | proyectoBloqueado (proyecto : Nat) (estado : String)
  | transaccionAprobada
  | segregacionFunciones
  | rendicionIncompleta (errores : List AuditFinding)
  | validationError (msg : String)
deriving DecidableEq, Repr

/-! ## Validators (`Back/api/validators.py`) -/

/-- `validar_saldo_disponible` (control C001): income always passes; an
expense needs the target subitem (preferred) or item to have
`saldo_disponible ≥ monto`. -/
def validar_saldo_disponible (t : Transaccion) (item_presupuestario : Option Item_Presupuestario)
    (subitem_presupuestario : Option Subitem_Presupuestario) : Except ApiError Unit :=
  if t.tipo_transaccion = TIPO_INGRESO then Except.ok ()
  else
    match subitem_presupuestario, item_presupuestario with
    | some s, _ =>
        if s.tiene_saldo_suficiente t.monto_transaccion then Except.ok ()
        else Except.error (ApiError.saldoInsuficiente s.saldo_disponible t.monto_transaccion)
    | none, some it =>
        if it.tiene_saldo_suficiente t.monto_transaccion then Except.ok ()
        else Except.error (ApiError.saldoInsuficiente it.saldo_disponible t.monto_transaccion)
    | none, none =>
        Except.error (ApiError.validationError "La transaccion debe estar asociada a un item presupuestario.")

/-- `validar_duplicidad` (control C003): no other transaction (any state,
optionally excluding the one being updated) shares (proveedor,
nro_documento).  `queryset.first()` is modelled as the head of the stored
row list. -/
def validar_duplicidad (db : DB) (proveedor : Nat) (nro_documento : String)
    (transaccion_id : Option Nat) : Except ApiError Unit :=
  let queryset := db.transacciones.filter
    (fun (t : Transaccion) => t.proveedor == proveedor && t.nro_documento == nro_documento)
  let queryset :=
    match transaccion_id with
    | some tid => queryset.filter (fun (t : Transaccion) => t.id != tid)
    | none => queryset
  match queryset with
  | [] => Except.ok ()
  | existente :: _ => Except.error (ApiError.transaccionDuplicada existente.id)

/-- `validar_categoria_gasto` (control C006): skipped when the item has no
category; otherwise the transaction's category must match
case-insensitively. -/
def validar_categoria_gasto (t : Transaccion) (item_presupuestario : Item_Presupuestario) :
    Except ApiError Unit :=
  match item_presupuestario.categoria_item with
  | none => Except.ok ()
  | some cat =>
      match t.categoria_gasto with
      | none => Except.error ApiError.categoriaNoCoincide
      | some cg =>
          if cg.toLower = cat.toLower then Except.ok ()
          else Except.error ApiError.categoriaNoCoincide

/-- `validar_proyecto_no_bloqueado` (control C007). -/
def validar_proyecto_no_bloqueado (proyecto : Proyecto) : Except ApiError Unit :=
  if proyecto.estado_proyecto ∈ ESTADOS_PROYECTO_BLOQUEADOS then
    Except.error (ApiError.proyectoBloqueado proyecto.id proyecto.estado_proyecto)
  else Except.ok ()

/-- `validar_cumplimiento_normativo` (control C011): document type present,
amount positive, registration date not in the future.  (The provider
foreign key is non-nullable in the model, so the final `if not
transaccion.proveedor` check cannot fire and is not modelled.) -/
def validar_cumplimiento_normativo (t : Transaccion) (today : Int) : Except ApiError Unit :=
  if t.tipo_doc_transaccion = "" then
    Except.error (ApiError.validationError "La transaccion debe tener un tipo de documento valido.")
  else if t.monto_transaccion ≤ 0 then
    Except.error (ApiError.validationError "El monto de la transaccion debe ser mayor a cero.")
  else if today < t.fecha_registro then
    Except.error (ApiError.validationError "La fecha de registro no puede ser futura.")
  else Except.ok ()

/-- The `evidencia__eliminado=False` join condition: the link's evidence
row exists and is not soft-deleted. -/
def evidencia_activa (db : DB) (te : Transaccion_Evidencia) : Bool :=
  match findBy Evidencia.id te.evidencia db.evidencias with
  | some e => !e.eliminado
  | none => false

/-- Active evidence links of one transaction. -/
def evidencias_activas_de (db : DB) (tid : Nat) : List Transaccion_Evidencia :=
  db.transaccion_evidencias.filter (fun te => te.transaccion == tid && evidencia_activa db te)

/-- Result dictionary of the pre-rendition audit. -/
structure ResultadoPreRendicion where
  errores : List AuditFinding
  advertencias : List AuditFinding
  valido : Bool
deriving DecidableEq, Repr

/-- The error and warning lists computed by
`validar_integridad_pre_rendicion`, in source order: pending-transaction
error, rejected-transaction warning, approved-without-evidence error, and
the reconciliation warning comparing the sum over *all* approved
transactions of the project with the project's cached executed amount. -/
def hallazgos_pre_rendicion (db : DB) (proyecto : Proyecto) :
    List AuditFinding × List AuditFinding :=
  let transacciones := db.transacciones.filter (fun t => t.proyecto == proyecto.id)
  let transacciones_pendientes := transacciones.filter
    (fun t => t.estado_transaccion == ESTADO_PENDIENTE)
  let errores_pendientes :=
    if transacciones_pendientes.isEmpty then []
    else [AuditFinding.pendientes transacciones_pendientes.length]
  let transacciones_rechazadas := transacciones.filter
    (fun t => t.estado_transaccion == ESTADO_RECHAZADO)
  let advertencias_rechazadas :=
    if transacciones_rechazadas.isEmpty then []
    else [AuditFinding.rechazadas transacciones_rechazadas.length]
  let transacciones_aprobadas := transacciones.filter
    (fun t => t.estado_transaccion == ESTADO_APROBADO)
  let transacciones_sin_evidencia :=
    (transacciones_aprobadas.filter (fun t => (evidencias_activas_de db t.id).isEmpty)).map
      (fun t => t.id)
  let errores_evidencia :=
    if transacciones_sin_evidencia.isEmpty then []
    else [AuditFinding.sinEvidencia transacciones_sin_evidencia]
  let monto_total_aprobado := (transacciones_aprobadas.map
    (fun t => t.monto_transaccion)).sum
  let advertencias_descuadre :=
    if monto_total_aprobado ≠ proyecto.monto_ejecutado_proyecto then
      [AuditFinding.descuadre proyecto.monto_ejecutado_proyecto monto_total_aprobado]
    else []
  (errores_pendientes ++ errores_evidencia,
   advertencias_rechazadas ++ advertencias_descuadre)

/-- `validar_integridad_pre_rendicion` (control C008): raises
`RendicionIncompletaException` when any error was found, otherwise returns
the result dictionary (whose `valido` is then necessarily `true`). -/
def validar_integridad_pre_rendicion (db : DB) (proyecto : Proyecto) :
    Except ApiError ResultadoPreRendicion :=
  let (errores, advertencias) := hallazgos_pre_rendicion db proyecto
  if errores.isEmpty then
    Except.ok { errores := errores, advertencias := advertencias, valido := true }
  else Except.error (ApiError.rendicionIncompleta errores)

/-! ## Services (`Back/api/services.py`) -/

/-- `subitem.monto_ejecutado_subitem += monto` (as one row function). -/
def sumaEjecSubitem (monto : Int) (s : Subitem_Presupuestario) : Subitem_Presupuestario :=
  { s with monto_ejecutado_subitem := s.monto_ejecutado_subitem + monto }

/-- `item.monto_ejecutado_item += monto`. -/
def sumaEjecItem (monto : Int) (it : Item_Presupuestario) : Item_Presupuestario :=
  { it with monto_ejecutado_item := it.monto_ejecutado_item + monto }

/-- `proyecto.monto_ejecutado_proyecto += monto`. -/
def sumaEjecProyecto (monto : Int) (p : Proyecto) : Proyecto :=
  { p with monto_ejecutado_proyecto := p.monto_ejecutado_proyecto + monto }

/-- `proyecto.presupuesto_total += monto`. -/
def sumaTotalProyecto (monto : Int) (p : Proyecto) : Proyecto :=
  { p with presupuesto_total := p.presupuesto_total + monto }

/-- `BudgetService.actualizar_montos_ejecutados`: on approval, add the
amount to the linked subitem and its parent item (or to the directly
linked item), then on the project add it to `monto_ejecutado_proyecto`
(expense) or to `presupuesto_total` (income). -/
def actualizar_montos_ejecutados (db : DB) (t : Transaccion) : DB :=
  let monto := t.monto_transaccion
  let db1 :=
    match t.subitem_presupuestario with
    | some sid =>
        match findBy Subitem_Presupuestario.id sid db.subitems with
        | some subitem =>
            let subitems' := updBy Subitem_Presupuestario.id sid (sumaEjecSubitem monto) db.subitems
            let items' := updBy Item_Presupuestario.id subitem.item_presupuesto (sumaEjecItem monto) db.items
            { db with subitems := subitems', items := items' }
        | none => db
    | none =>
        match t.item_presupuestario with
        | some iid =>
            { db with items := updBy Item_Presupuestario.id iid (sumaEjecItem monto) db.items }
        | none => db
  if t.tipo_transaccion = TIPO_EGRESO then
    { db1 with proyectos := updBy Proyecto.id t.proyecto (sumaEjecProyecto monto) db1.proyectos }
  else
    { db1 with proyectos := updBy Proyecto.id t.proyecto (sumaTotalProyecto monto) db1.proyectos }

/-- `subitem.monto_ejecutado_subitem -= monto` (delete-reversal). -/
def restaEjecSubitem (monto : Int) (s : Subitem_Presupuestario) : Subitem_Presupuestario :=
  { s with monto_ejecutado_subitem := s.monto_ejecutado_subitem - monto }

/-- `item.monto_ejecutado_item -= monto` (delete-reversal). -/
def restaEjecItem (monto : Int) (it : Item_Presupuestario) : Item_Presupuestario :=
  { it with monto_ejecutado_item := it.monto_ejecutado_item - monto }

/-- `proyecto.monto_ejecutado_proyecto -= monto` (delete-reversal). -/
def restaEjecProyecto (monto : Int) (p : Proyecto) : Proyecto :=
  { p with monto_ejecutado_proyecto := p.monto_ejecutado_proyecto - monto }

/-- `proyecto.presupuesto_total -= monto` (delete-reversal). -/
def restaTotalProyecto (monto : Int) (p : Proyecto) : Proyecto :=
  { p with presupuesto_total := p.presupuesto_total - monto }

/-- The ledger reversal performed by `TransaccionViewSet.destroy`
(`views.py` 1133-1159) before deleting an approved transaction: the exact
mirror of `actualizar_montos_ejecutados` with subtraction. -/
def revertir_montos_ejecutados (db : DB) (t : Transaccion) : DB :=
  let monto := t.monto_transaccion
  let db1 :=
    match t.subitem_presupuestario with
    | some sid =>
        match findBy Subitem_Presupuestario.id sid db.subitems with
        | some subitem =>
            let subitems' := updBy Subitem_Presupuestario.id sid (restaEjecSubitem monto) db.subitems
            let items' := updBy Item_Presupuestario.id subitem.item_presupuesto (restaEjecItem monto) db.items
            { db with subitems := subitems', items := items' }
        | none => db
    | none =>
        match t.item_presupuestario with
        | some iid =>
            { db with items := updBy Item_Presupuestario.id iid (restaEjecItem monto) db.items }
        | none => db
  if t.tipo_transaccion = TIPO_EGRESO then
    { db1 with proyectos := updBy Proyecto.id t.proyecto (restaEjecProyecto monto) db1.proyectos }
  else
    { db1 with proyectos := updBy Proyecto.id t.proyecto (restaTotalProyecto monto) db1.proyectos }

/-- `TransactionService.crear_transaccion`: project-lock, duplicate,
regulatory checks, then (for expenses) balance and category checks against
the current snapshot; on success persists the pending transaction and one
`creacion` audit-log row.  `today` is `timezone.now().date()` and the
database assigns `data.id` to the new row. -/
def crear_transaccion (db : DB) (data : Transaccion) (usuario : Nat) (today : Int) :
    Except ApiError (DB × Transaccion) :=
  match findBy Proyecto.id data.proyecto db.proyectos with
  | none => Except.error (ApiError.validationError "proyecto inexistente")
  | some proyecto =>
    match validar_proyecto_no_bloqueado proyecto with
    | Except.error e => Except.error e
    | Except.ok _ =>
      match validar_duplicidad db data.proveedor data.nro_documento none with
      | Except.error e => Except.error e
      | Except.ok _ =>
        let transaccion := { data with usuario := usuario, estado_transaccion := ESTADO_PENDIENTE }
        match validar_cumplimiento_normativo transaccion today with
        | Except.error e => Except.error e
        | Except.ok _ =>
          let item := transaccion.item_presupuestario.bind
            (fun i => findBy Item_Presupuestario.id i db.items)
          let subitem := transaccion.subitem_presupuestario.bind
            (fun s => findBy Subitem_Presupuestario.id s db.subitems)
          let chequeos : Except ApiError Unit :=
            if transaccion.tipo_transaccion = TIPO_EGRESO then
              let saldo : Except ApiError Unit :=
                match subitem, item with
                | some su, _ => validar_saldo_disponible transaccion none (some su)
                | none, some it => validar_saldo_disponible transaccion (some it) none
                | none, none => Except.error (ApiError.validationError
                    "Las transacciones de egreso deben estar asociadas a un item presupuestario.")
              match saldo with
              | Except.error e => Except.error e
              | Except.ok _ =>
                match item, transaccion.categoria_gasto with
                | some it, some _ => validar_categoria_gasto transaccion it
                | _, _ => Except.ok ()
            else Except.ok ()
          match chequeos with
          | Except.error e => Except.error e
          | Except.ok _ =>
            let log : Log_transaccion :=
              { transaccion := some transaccion.id, transaccion_id_eliminada := none,
                transaccion_nro_documento := none, transaccion_monto := none,
                proyecto := none, usuario := usuario, accion_realizada := ACCION_LOG_CREACION }
            let db' := { db with transacciones := db.transacciones ++ [transaccion], logs := db.logs ++ [log] }
            Except.ok (db', transaccion)

/-- `TransactionService.aprobar_transaccion`: the `puede_aprobar` gate
(creator-as-approver is reported before non-pending state), project lock,
expense balance/category checks, regulatory check; on success sets
state/approver/timestamp, applies the ledger update and appends one
`aprobacion` audit-log row. -/
def aprobar_transaccion (db : DB) (t : Transaccion) (usuario_aprobador : Nat)
    (now : Int) (today : Int) : Except ApiError (DB × Transaccion) :=
  let gate : Except ApiError Unit :=
    if ¬ t.puede_aprobar usuario_aprobador then
      if t.usuario = usuario_aprobador then Except.error ApiError.segregacionFunciones
      else if t.estado_transaccion ≠ ESTADO_PENDIENTE then Except.error ApiError.transaccionAprobada
      else Except.ok ()
    else Except.ok ()
  match gate with
  | Except.error e => Except.error e
  | Except.ok _ =>
    match findBy Proyecto.id t.proyecto db.proyectos with
    | none => Except.error (ApiError.validationError "proyecto inexistente")
    | some proyecto =>
      match validar_proyecto_no_bloqueado proyecto with
      | Except.error e => Except.error e
      | Except.ok _ =>
        let item := t.item_presupuestario.bind
          (fun i => findBy Item_Presupuestario.id i db.items)
        let subitem := t.subitem_presupuestario.bind
          (fun s => findBy Subitem_Presupuestario.id s db.subitems)
        let chequeos : Except ApiError Unit :=
          if t.tipo_transaccion = TIPO_EGRESO then
            let saldo : Except ApiError Unit :=
              match subitem, item with
              | some su, _ => validar_saldo_disponible t none (some su)
              | none, some it => validar_saldo_disponible t (some it) none
              | none, none => Except.ok ()
            match saldo with
            | Except.error e => Except.error e
            | Except.ok _ =>
              match item, t.categoria_gasto with
              | some it, some _ => validar_categoria_gasto t it
              | _, _ => Except.ok ()
          else Except.ok ()
        match chequeos with
        | Except.error e => Except.error e
        | Except.ok _ =>
          match validar_cumplimiento_normativo t today with
          | Except.error e => Except.error e
          | Except.ok _ =>
            let t' := { t with estado_transaccion := ESTADO_APROBADO, fecha_aprobacion := some now, usuario_aprobador := some usuario_aprobador }
            let transacciones' := updBy Transaccion.id t.id (fun _ => t') db.transacciones
            let db1 := { db with transacciones := transacciones' }
            let db2 := actualizar_montos_ejecutados db1 t'
            let log : Log_transaccion :=
              { transaccion := some t.id, transaccion_id_eliminada := none,
                transaccion_nro_documento := none, transaccion_monto := none,
                proyecto := none, usuario := usuario_aprobador,
                accion_realizada := ACCION_LOG_APROBACION }
            Except.ok ({ db2 with logs := db2.logs ++ [log] }, t')

/-- `TransactionService.rechazar_transaccion`: only a pending transaction
can be rejected; the optional `motivo` argument is accepted but never
used.  Appends one `rechazo` audit-log row. -/
def rechazar_transaccion (db : DB) (t : Transaccion) (usuario_rechazador : Nat)
    (motivo : Option String) : Except ApiError (DB × Transaccion) :=
  if t.estado_transaccion ≠ ESTADO_PENDIENTE then Except.error ApiError.transaccionAprobada
  else
    let t' := { t with estado_transaccion := ESTADO_RECHAZADO }
    let log : Log_transaccion :=
      { transaccion := some t.id, transaccion_id_eliminada := none,
        transaccion_nro_documento := none, transaccion_monto := none,
        proyecto := none, usuario := usuario_rechazador,
        accion_realizada := ACCION_LOG_RECHAZO }
    let transacciones' := updBy Transaccion.id t.id (fun _ => t') db.transacciones
    Except.ok ({ db with transacciones := transacciones', logs := db.logs ++ [log] }, t')

/-- `RenditionService.generar_pre_rendicion`: returns the audit result;
when `validar_integridad_pre_rendicion` raises, catches the exception and
returns `valido := false` with the raised errors and an *empty* warning
list. -/
def generar_pre_rendicion (db : DB) (proyecto : Proyecto) : ResultadoPreRendicion :=
  match validar_integridad_pre_rendicion db proyecto with
  | Except.ok resultado => resultado
  | Except.error (ApiError.rendicionIncompleta errores) =>
      { errores := errores, advertencias := [], valido := false }
  | Except.error _ => { errores := [], advertencias := [], valido := false }

/-- `RenditionService.cerrar_rendicion`: re-runs the integrity audit
(which raises `RendicionIncompletaException` on any error) and on success
sets the project state to `completado`. -/
def cerrar_rendicion (db : DB) (proyecto : Proyecto) (usuario : Nat) :
    Except ApiError (DB × Proyecto) :=
  match validar_integridad_pre_rendicion db proyecto with
  | Except.error e => Except.error e
  | Except.ok resultado =>
    if ¬ resultado.valido then
      Except.error (ApiError.rendicionIncompleta resultado.errores)
    else
      let p' := { proyecto with estado_proyecto := "completado" }
      let proyectos' := updBy Proyecto.id proyecto.id (fun _ => p') db.proyectos
      Except.ok ({ db with proyectos := proyectos' }, p')

/-! ## View-level transaction mutations (`Back/api/views.py`) -/

/-- The guard prefix of `TransaccionViewSet.update` (`views.py`
1049-1065): a non-pending transaction is refused outright, then the
project-lock check runs; the serializer work that follows is outside the
core. -/
def actualizar_transaccion_guard (db : DB) (t : Transaccion) : Except ApiError Unit :=
  if ¬ t.puede_editar then Except.error ApiError.transaccionAprobada
  else
    match findBy Proyecto.id t.proyecto db.proyectos with
    | none => Except.error (ApiError.validationError "proyecto inexistente")
    | some proyecto => validar_proyecto_no_bloqueado proyecto

/-- `TransaccionViewSet.destroy` (`views.py` 1103-1187): the project-lock
check runs only when the transaction is approved; an approved
transaction's ledger effect is reversed; a tombstone `eliminacion`
audit-log row (transaction reference nulled by `SET_NULL`, tombstone
fields populated) is written before the row is removed. -/
def destroy_transaccion (db : DB) (t : Transaccion) (usuario : Nat) : Except ApiError DB :=
  let gate : Except ApiError Unit :=
    if t.estado_transaccion = ESTADO_APROBADO then
      match findBy Proyecto.id t.proyecto db.proyectos with
      | none => Except.error (ApiError.validationError "proyecto inexistente")
      | some proyecto => validar_proyecto_no_bloqueado proyecto
    else Except.ok ()
  match gate with
  | Except.error e => Except.error e
  | Except.ok _ =>
    let db1 :=
      if t.estado_transaccion = ESTADO_APROBADO then revertir_montos_ejecutados db t else db
    let log : Log_transaccion :=
      { transaccion := none, transaccion_id_eliminada := some t.id,
        transaccion_nro_documento := some t.nro_documento,
        transaccion_monto := some t.monto_transaccion,
        proyecto := some t.proyecto, usuario := usuario,
        accion_realizada := ACCION_LOG_DELETE }
    Except.ok { db1 with
      transacciones := db1.transacciones.filter (fun (x : Transaccion) => x.id != t.id),
      logs := db1.logs ++ [log] }

/-! ## Generic lemmas about row lookup / update -/

theorem findBy_updBy {α : Type} (key : α → Nat) (i : Nat) (f : α → α)
    (hf : ∀ x, key x = i → key (f x) = i) (l : List α) :
    findBy key i (updBy key i f l) = (findBy key i l).map f := by
  induction l with
  | nil => rfl
  | cons a l ih =>
    by_cases h : key a = i
    · simp [findBy, updBy, List.find?_cons, h, hf a h] at ih ⊢
    · simp [findBy, updBy, List.find?_cons, h] at ih ⊢
      exact ih

theorem updBy_cancel {α : Type} (key : α → Nat) (i : Nat) (f g : α → α)
    (hf : ∀ x, key (f x) = key x) (hgf : ∀ x, g (f x) = x) (l : List α) :
    updBy key i g (updBy key i f l) = l := by
  induction l with
  | nil => rfl
  | cons a l ih =>
    by_cases h : key a = i
    · simp [updBy, h, hf, hgf] at ih ⊢
      exact ih
    · simp [updBy, h] at ih ⊢
      exact ih

/-! ## Exact inverse arithmetic, row by row -/

theorem restaSuma_subitem (m : Int) (s : Subitem_Presupuestario) :
    restaEjecSubitem m (sumaEjecSubitem m s) = s := by
  simp [restaEjecSubitem, sumaEjecSubitem]

theorem restaSuma_item (m : Int) (it : Item_Presupuestario) :
    restaEjecItem m (sumaEjecItem m it) = it := by
  simp [restaEjecItem, sumaEjecItem]

theorem restaSuma_proyecto_ejec (m : Int) (p : Proyecto) :
    restaEjecProyecto m (sumaEjecProyecto m p) = p := by
  simp [restaEjecProyecto, sumaEjecProyecto]

theorem restaSuma_proyecto_total (m : Int) (p : Proyecto) :
    restaTotalProyecto m (sumaTotalProyecto m p) = p := by
  simp [restaTotalProyecto, sumaTotalProyecto]

/-- C2: applying the ledger update of a transaction and then reversing it
(the arithmetic `TransaccionViewSet.destroy` performs when deleting an
approved transaction) restores every subitem, item and project row — hence
every executed amount and total budget — to its exact pre-apply value:
the database snapshot round-trips unchanged. -/
theorem apply_reverse_restores_all_balances (db : DB) (t : Transaccion) :
    revertir_montos_ejecutados (actualizar_montos_ejecutados db t) t = db := by
  have csub := fun (i : Nat) => updBy_cancel Subitem_Presupuestario.id i
    (sumaEjecSubitem t.monto_transaccion) (restaEjecSubitem t.monto_transaccion) (fun x => rfl)
    (restaSuma_subitem t.monto_transaccion) db.subitems
  have citem := fun (i : Nat) => updBy_cancel Item_Presupuestario.id i
    (sumaEjecItem t.monto_transaccion) (restaEjecItem t.monto_transaccion) (fun x => rfl)
    (restaSuma_item t.monto_transaccion) db.items
  have cproyE := updBy_cancel Proyecto.id t.proyecto (sumaEjecProyecto t.monto_transaccion)
    (restaEjecProyecto t.monto_transaccion) (fun x => rfl)
    (restaSuma_proyecto_ejec t.monto_transaccion) db.proyectos
  have cproyT := updBy_cancel Proyecto.id t.proyecto (sumaTotalProyecto t.monto_transaccion)
    (restaTotalProyecto t.monto_transaccion) (fun x => rfl)
    (restaSuma_proyecto_total t.monto_transaccion) db.proyectos
  unfold actualizar_montos_ejecutados revertir_montos_ejecutados
  cases hsub : t.subitem_presupuestario with
  | some sid =>
    cases hfind : findBy Subitem_Presupuestario.id sid db.subitems with
    | some su =>
      have hfind' : findBy Subitem_Presupuestario.id sid
          (updBy Subitem_Presupuestario.id sid (sumaEjecSubitem t.monto_transaccion) db.subitems)
          = some (sumaEjecSubitem t.monto_transaccion su) := by
        rw [findBy_updBy Subitem_Presupuestario.id sid (sumaEjecSubitem t.monto_transaccion)
          (fun x hx => hx) db.subitems, hfind]
        rfl
      by_cases htipo : t.tipo_transaccion = TIPO_EGRESO <;>
        simp [hsub, hfind, hfind', htipo, csub, citem, cproyE, cproyT, sumaEjecSubitem]
    | none =>
      by_cases htipo : t.tipo_transaccion = TIPO_EGRESO <;>
        simp [hsub, hfind, htipo, cproyE, cproyT]
  | none =>
    cases hitem : t.item_presupuestario with
    | some iid =>
      by_cases htipo : t.tipo_transaccion = TIPO_EGRESO <;>
        simp [hsub, hitem, htipo, citem, cproyE, cproyT]
    | none =>
      by_cases htipo : t.tipo_transaccion = TIPO_EGRESO <;>
        simp [hsub, hitem, htipo, cproyE, cproyT]

/-! ## Projections of the ledger update -/

theorem apply_proyectos (db : DB) (t : Transaccion) :
    (actualizar_montos_ejecutados db t).proyectos =
      if t.tipo_transaccion = TIPO_EGRESO then
        updBy Proyecto.id t.proyecto (sumaEjecProyecto t.monto_transaccion) db.proyectos
      else
        updBy Proyecto.id t.proyecto (sumaTotalProyecto t.monto_transaccion) db.proyectos := by
  unfold actualizar_montos_ejecutados
  cases hsub : t.subitem_presupuestario with
  | some sid =>
    cases hfind : findBy Subitem_Presupuestario.id sid db.subitems with
    | some su => by_cases htipo : t.tipo_transaccion = TIPO_EGRESO <;> simp [htipo, hfind]
    | none => by_cases htipo : t.tipo_transaccion = TIPO_EGRESO <;> simp [htipo, hfind]
  | none =>
    cases hitem : t.item_presupuestario with
    | some iid => by_cases htipo : t.tipo_transaccion = TIPO_EGRESO <;> simp [htipo, hitem]
    | none => by_cases htipo : t.tipo_transaccion = TIPO_EGRESO <;> simp [htipo, hitem]

theorem apply_subitems_of_sub (db : DB) (t : Transaccion) (sid : Nat) (su : Subitem_Presupuestario)
    (hsub : t.subitem_presupuestario = some sid)
    (hfind : findBy Subitem_Presupuestario.id sid db.subitems = some su) :
    (actualizar_montos_ejecutados db t).subitems =
      updBy Subitem_Presupuestario.id sid (sumaEjecSubitem t.monto_transaccion) db.subitems := by
  unfold actualizar_montos_ejecutados
  by_cases htipo : t.tipo_transaccion = TIPO_EGRESO <;> simp [hsub, hfind, htipo]

theorem apply_items_of_sub (db : DB) (t : Transaccion) (sid : Nat) (su : Subitem_Presupuestario)
    (hsub : t.subitem_presupuestario = some sid)
    (hfind : findBy Subitem_Presupuestario.id sid db.subitems = some su) :
    (actualizar_montos_ejecutados db t).items =
      updBy Item_Presupuestario.id su.item_presupuesto (sumaEjecItem t.monto_transaccion) db.items := by
  unfold actualizar_montos_ejecutados
  by_cases htipo : t.tipo_transaccion = TIPO_EGRESO <;> simp [hsub, hfind, htipo]

theorem apply_subitems_of_nosub (db : DB) (t : Transaccion)
    (hsub : t.subitem_presupuestario = none) :
    (actualizar_montos_ejecutados db t).subitems = db.subitems := by
  unfold actualizar_montos_ejecutados
  cases hitem : t.item_presupuestario with
  | some iid => by_cases htipo : t.tipo_transaccion = TIPO_EGRESO <;> simp [hsub, hitem, htipo]
  | none => by_cases htipo : t.tipo_transaccion = TIPO_EGRESO <;> simp [hsub, hitem, htipo]

theorem apply_items_of_item (db : DB) (t : Transaccion) (iid : Nat)
    (hsub : t.subitem_presupuestario = none) (hitem : t.item_presupuestario = some iid) :
    (actualizar_montos_ejecutados db t).items =
      updBy Item_Presupuestario.id iid (sumaEjecItem t.monto_transaccion) db.items := by
  unfold actualizar_montos_ejecutados
  by_cases htipo : t.tipo_transaccion = TIPO_EGRESO <;> simp [hsub, hitem, htipo]

/-- C1: for a transaction with amount `m`: when a subitem is linked, the
ledger update adds `m` to the subitem's executed amount and to its parent
item's executed amount; when only an item is linked it adds `m` to that
item's executed amount only (subitems untouched); on the project, an
expense adds `m` to the executed total while an income adds `m` to the
total budget and leaves the executed total unchanged. -/
theorem ledger_update_effects (db : DB) (t : Transaccion) :
    (∀ sid su, t.subitem_presupuestario = some sid →
      findBy Subitem_Presupuestario.id sid db.subitems = some su →
      (∃ su', findBy Subitem_Presupuestario.id sid (actualizar_montos_ejecutados db t).subitems = some su' ∧
        su'.monto_ejecutado_subitem = su.monto_ejecutado_subitem + t.monto_transaccion) ∧
      (∀ it, findBy Item_Presupuestario.id su.item_presupuesto db.items = some it →
        ∃ it', findBy Item_Presupuestario.id su.item_presupuesto (actualizar_montos_ejecutados db t).items = some it' ∧
          it'.monto_ejecutado_item = it.monto_ejecutado_item + t.monto_transaccion)) ∧
    (t.subitem_presupuestario = none →
      ∀ iid, t.item_presupuestario = some iid →
      (actualizar_montos_ejecutados db t).subitems = db.subitems ∧
      (∀ it, findBy Item_Presupuestario.id iid db.items = some it →
        ∃ it', findBy Item_Presupuestario.id iid (actualizar_montos_ejecutados db t).items = some it' ∧
          it'.monto_ejecutado_item = it.monto_ejecutado_item + t.monto_transaccion)) ∧
    (∀ p, findBy Proyecto.id t.proyecto db.proyectos = some p →
      (t.tipo_transaccion = TIPO_EGRESO →
        ∃ p', findBy Proyecto.id t.proyecto (actualizar_montos_ejecutados db t).proyectos = some p' ∧
          p'.monto_ejecutado_proyecto = p.monto_ejecutado_proyecto + t.monto_transaccion) ∧
      (t.tipo_transaccion = TIPO_INGRESO →
        ∃ p', findBy Proyecto.id t.proyecto (actualizar_montos_ejecutados db t).proyectos = some p' ∧
          p'.presupuesto_total = p.presupuesto_total + t.monto_transaccion ∧
          p'.monto_ejecutado_proyecto = p.monto_ejecutado_proyecto)) := by
  refine ⟨?_, ?_, ?_⟩
  · intro sid su hsub hfind
    constructor
    · refine ⟨sumaEjecSubitem t.monto_transaccion su, ?_, rfl⟩
      rw [apply_subitems_of_sub db t sid su hsub hfind,
        findBy_updBy Subitem_Presupuestario.id sid (sumaEjecSubitem t.monto_transaccion)
          (fun x hx => hx) db.subitems, hfind]
      rfl
    · intro it hit
      refine ⟨sumaEjecItem t.monto_transaccion it, ?_, rfl⟩
      rw [apply_items_of_sub db t sid su hsub hfind,
        findBy_updBy Item_Presupuestario.id su.item_presupuesto (sumaEjecItem t.monto_transaccion)
          (fun x hx => hx) db.items, hit]
      rfl
  · intro hsub iid hitem
    refine ⟨apply_subitems_of_nosub db t hsub, ?_⟩
    intro it hit
    refine ⟨sumaEjecItem t.monto_transaccion it, ?_, rfl⟩
    rw [apply_items_of_item db t iid hsub hitem,
      findBy_updBy Item_Presupuestario.id iid (sumaEjecItem t.monto_transaccion)
        (fun x hx => hx) db.items, hit]
    rfl
  · intro p hp
    constructor
    · intro htipo
      refine ⟨sumaEjecProyecto t.monto_transaccion p, ?_, rfl⟩
      rw [apply_proyectos, if_pos htipo,
        findBy_updBy Proyecto.id t.proyecto (sumaEjecProyecto t.monto_transaccion)
          (fun x hx => hx) db.proyectos, hp]
      rfl
    · intro htipo
      have hne : t.tipo_transaccion ≠ TIPO_EGRESO := by rw [htipo]; decide
      refine ⟨sumaTotalProyecto t.monto_transaccion p, ?_, rfl, rfl⟩
      rw [apply_proyectos, if_neg hne,
        findBy_updBy Proyecto.id t.proyecto (sumaTotalProyecto t.monto_transaccion)
          (fun x hx => hx) db.proyectos, hp]
      rfl

/-! ## A concrete sample world for witnesses -/

/-- Sample project (unlocked, executed total 0). -/
def pW : Proyecto :=
  { id := 1, presupuesto_total := 1000000, monto_ejecutado_proyecto := 0,
    estado_proyecto := "activo" }

/-- Sample budget item of `pW`. -/
def itW : Item_Presupuestario :=
  { id := 5, proyecto := 1, monto_asignado_item := 500000, monto_ejecutado_item := 0,
    categoria_item := none }

/-- Sample subitem of `itW`. -/
def suW : Subitem_Presupuestario :=
  { id := 10, item_presupuesto := 5, monto_asignado_subitem := 300000,
    monto_ejecutado_subitem := 0, categoria_subitem := none }

/-- Sample pending expense transaction of user 100 on `pW`, linked to the
subitem `suW`. -/
def txW : Transaccion :=
  { id := 42, proyecto := 1, usuario := 100, proveedor := 7, monto_transaccion := 1000,
    fecha_registro := 0, nro_documento := "FAC-1", tipo_doc_transaccion := "factura electronica",
    tipo_transaccion := TIPO_EGRESO, estado_transaccion := ESTADO_PENDIENTE,
    fecha_aprobacion := none, usuario_aprobador := none,
    item_presupuestario := some 5, subitem_presupuestario := some 10,
    categoria_gasto := none, numero_cuenta_bancaria := none, numero_operacion_bancaria := none }

/-- Sample database snapshot for witnesses. -/
def dbW : DB :=
  { proyectos := [pW], items := [itW], subitems := [suW], transacciones := [],
    evidencias := [], transaccion_evidencias := [], logs := [] }

theorem ledger_update_effects_witness :
    ((∃ su', findBy Subitem_Presupuestario.id 10 (actualizar_montos_ejecutados dbW txW).subitems = some su' ∧
        su'.monto_ejecutado_subitem = suW.monto_ejecutado_subitem + txW.monto_transaccion) ∧
     (∃ it', findBy Item_Presupuestario.id 5 (actualizar_montos_ejecutados dbW txW).items = some it' ∧
        it'.monto_ejecutado_item = itW.monto_ejecutado_item + txW.monto_transaccion)) ∧
    (∃ p', findBy Proyecto.id 1 (actualizar_montos_ejecutados dbW txW).proyectos = some p' ∧
        p'.monto_ejecutado_proyecto = pW.monto_ejecutado_proyecto + txW.monto_transaccion) := by
  have h := ledger_update_effects dbW txW
  have h1 := h.1 10 suW (by decide) (by decide)
  have h2 := (h.2.2 pW (by decide)).1 (by decide)
  exact ⟨⟨h1.1, h1.2 itW (by decide)⟩, h2⟩

/-- C3: for an expense draft that passes the earlier create-validations
(project not locked, no duplicate, regulatory check), if the target
subitem (preferred) or item has balance `assigned - executed` strictly
below the draft's amount, `crear_transaccion` fails with the
insufficient-balance error reporting the available balance and the
required amount — so no row is written and the target item is unchanged;
and an income draft always passes the balance validator. -/
theorem create_insufficient_balance (db : DB) (data : Transaccion) (usuario : Nat) (today : Int)
    (p : Proyecto)
    (hp : findBy Proyecto.id data.proyecto db.proyectos = some p)
    (hlock : validar_proyecto_no_bloqueado p = Except.ok ())
    (hdup : validar_duplicidad db data.proveedor data.nro_documento none = Except.ok ())
    (hnorm : validar_cumplimiento_normativo
      { data with usuario := usuario, estado_transaccion := ESTADO_PENDIENTE } today = Except.ok ())
    (hegreso : data.tipo_transaccion = TIPO_EGRESO) :
    (∀ sid su, data.subitem_presupuestario = some sid →
      findBy Subitem_Presupuestario.id sid db.subitems = some su →
      su.saldo_disponible < data.monto_transaccion →
      crear_transaccion db data usuario today =
        Except.error (ApiError.saldoInsuficiente su.saldo_disponible data.monto_transaccion)) ∧
    (data.subitem_presupuestario = none →
      ∀ iid it, data.item_presupuestario = some iid →
      findBy Item_Presupuestario.id iid db.items = some it →
      it.saldo_disponible < data.monto_transaccion →
      crear_transaccion db data usuario today =
        Except.error (ApiError.saldoInsuficiente it.saldo_disponible data.monto_transaccion)) ∧
    (∀ (t : Transaccion) (item : Option Item_Presupuestario)
      (subitem : Option Subitem_Presupuestario), t.tipo_transaccion = TIPO_INGRESO →
      validar_saldo_disponible t item subitem = Except.ok ()) := by
  have hni : data.tipo_transaccion ≠ TIPO_INGRESO := by rw [hegreso]; decide
  have hEI : TIPO_EGRESO ≠ TIPO_INGRESO := by decide
  refine ⟨?_, ?_, ?_⟩
  · intro sid su hsub hfind hsaldo
    have hinsuf : su.tiene_saldo_suficiente data.monto_transaccion = false := by
      simp [Subitem_Presupuestario.tiene_saldo_suficiente]
      exact hsaldo
    simp only [crear_transaccion, hp, hlock, hdup, hnorm]
    simp [hsub, hfind, hegreso, hEI, validar_saldo_disponible, hni, hinsuf]
  · intro hsub iid it hitem hfind hsaldo
    have hinsuf : it.tiene_saldo_suficiente data.monto_transaccion = false := by
      simp [Item_Presupuestario.tiene_saldo_suficiente]
      exact hsaldo
    simp only [crear_transaccion, hp, hlock, hdup, hnorm]
    simp [hsub, hitem, hfind, hegreso, hEI, validar_saldo_disponible, hni, hinsuf]
  · intro t item subitem hingreso
    simp [validar_saldo_disponible, hingreso]

/-- The spec scenario draft: expense of 600000 against the item `itW`
(assigned 500000, executed 0). -/
def txC3 : Transaccion :=
  { id := 43, proyecto := 1, usuario := 100, proveedor := 7, monto_transaccion := 600000,
    fecha_registro := 0, nro_documento := "FAC-2", tipo_doc_transaccion := "factura electronica",
    tipo_transaccion := TIPO_EGRESO, estado_transaccion := ESTADO_PENDIENTE,
    fecha_aprobacion := none, usuario_aprobador := none,
    item_presupuestario := some 5, subitem_presupuestario := none,
    categoria_gasto := none, numero_cuenta_bancaria := none, numero_operacion_bancaria := none }

theorem create_insufficient_balance_witness :
    crear_transaccion dbW txC3 100 0 =
      Except.error (ApiError.saldoInsuficiente 500000 600000) := by
  exact (create_insufficient_balance dbW txC3 100 0 pW rfl rfl rfl rfl rfl).2.1
    rfl 5 itW rfl rfl (by decide)

/-! ## Shared helper equations for reject / delete -/

/-- The audit-log row `rechazar_transaccion` writes. -/
def logRechazo (tid usuario : Nat) : Log_transaccion :=
  { transaccion := some tid, transaccion_id_eliminada := none,
    transaccion_nro_documento := none, transaccion_monto := none,
    proyecto := none, usuario := usuario, accion_realizada := ACCION_LOG_RECHAZO }

/-- The tombstone audit-log row `destroy` writes. -/
def logTombstone (t : Transaccion) (usuario : Nat) : Log_transaccion :=
  { transaccion := none, transaccion_id_eliminada := some t.id,
    transaccion_nro_documento := some t.nro_documento,
    transaccion_monto := some t.monto_transaccion,
    proyecto := some t.proyecto, usuario := usuario, accion_realizada := ACCION_LOG_DELETE }

/-- The audit-log row `aprobar_transaccion` writes. -/
def logAprobacion (tid usuario : Nat) : Log_transaccion :=
  { transaccion := some tid, transaccion_id_eliminada := none,
    transaccion_nro_documento := none, transaccion_monto := none,
    proyecto := none, usuario := usuario, accion_realizada := ACCION_LOG_APROBACION }

theorem rechazar_pendiente_eq (db : DB) (t : Transaccion) (usuario : Nat) (motivo : Option String)
    (hpend : t.estado_transaccion = ESTADO_PENDIENTE) :
    rechazar_transaccion db t usuario motivo =
      Except.ok ({ db with
          transacciones := updBy Transaccion.id t.id
            (fun _ => { t with estado_transaccion := ESTADO_RECHAZADO }) db.transacciones,
          logs := db.logs ++ [logRechazo t.id usuario] },
        { t with estado_transaccion := ESTADO_RECHAZADO }) := by
  simp [rechazar_transaccion, hpend, logRechazo]

theorem destroy_no_aprobado_eq (db : DB) (t : Transaccion) (usuario : Nat)
    (h : t.estado_transaccion ≠ ESTADO_APROBADO) :
    destroy_transaccion db t usuario =
      Except.ok { db with
        transacciones := db.transacciones.filter (fun (x : Transaccion) => x.id != t.id),
        logs := db.logs ++ [logTombstone t usuario] } := by
  simp [destroy_transaccion, h, logTombstone]

/-! ## A locked sample world -/

/-- Sample locked project (state `completado`). -/
def pL : Proyecto :=
  { id := 2, presupuesto_total := 1000000, monto_ejecutado_proyecto := 0,
    estado_proyecto := "completado" }

/-- Sample pending transaction under the locked project `pL`. -/
def txL : Transaccion :=
  { id := 50, proyecto := 2, usuario := 100, proveedor := 7, monto_transaccion := 1000,
    fecha_registro := 0, nro_documento := "FAC-L1", tipo_doc_transaccion := "factura electronica",
    tipo_transaccion := TIPO_EGRESO, estado_transaccion := ESTADO_PENDIENTE,
    fecha_aprobacion := none, usuario_aprobador := none,
    item_presupuestario := none, subitem_presupuestario := none,
    categoria_gasto := none, numero_cuenta_bancaria := none, numero_operacion_bancaria := none }

/-- A fresh draft targeting the locked project `pL`. -/
def txLNew : Transaccion :=
  { txL with id := 51, nro_documento := "FAC-L2" }

/-- Sample snapshot containing only the locked project and `txL`. -/
def dbL : DB :=
  { proyectos := [pL], items := [], subitems := [], transacciones := [txL],
    evidencias := [], transaccion_evidencias := [], logs := [] }

/-- C4 counterexample: under the locked project `pL` (state `completado`),
rejecting the pending transaction `txL` is *not* refused with
`ProyectoBloqueado`: `rechazar_transaccion` performs no project-lock check,
succeeds, and flips the transaction to `rechazado`. -/
theorem locked_project_reject_succeeds :
    pL.estado_proyecto ∈ ESTADOS_PROYECTO_BLOQUEADOS ∧
    txL.proyecto = pL.id ∧ txL.estado_transaccion = ESTADO_PENDIENTE ∧
    ∃ db' t', rechazar_transaccion dbL txL 200 none = Except.ok (db', t') ∧
      t'.estado_transaccion = ESTADO_RECHAZADO := by
  refine ⟨by decide, rfl, rfl, _, _, rechazar_pendiente_eq dbL txL 200 none rfl, rfl⟩

/-- C4 (amended): when the project is locked (`en_rendicion`, `cerrado` or
`completado`), `create`, `approve`, `update` of a pending transaction, and
`delete` of an *approved* transaction are refused with `ProyectoBloqueado`
(no state change: each returns an error and produces no database); but
`reject` performs no lock check and succeeds on any pending transaction,
and `delete` of a non-approved transaction also proceeds without a lock
check. -/
theorem project_locked_guards (db : DB) (t data : Transaccion) (usuario : Nat)
    (today now : Int) (motivo : Option String) (p : Proyecto)
    (hlocked : p.estado_proyecto ∈ ESTADOS_PROYECTO_BLOQUEADOS) :
    (findBy Proyecto.id data.proyecto db.proyectos = some p →
      crear_transaccion db data usuario today =
        Except.error (ApiError.proyectoBloqueado p.id p.estado_proyecto)) ∧
    (findBy Proyecto.id t.proyecto db.proyectos = some p →
      t.estado_transaccion = ESTADO_PENDIENTE → t.usuario ≠ usuario →
      aprobar_transaccion db t usuario now today =
        Except.error (ApiError.proyectoBloqueado p.id p.estado_proyecto)) ∧
    (findBy Proyecto.id t.proyecto db.proyectos = some p →
      t.estado_transaccion = ESTADO_PENDIENTE →
      actualizar_transaccion_guard db t =
        Except.error (ApiError.proyectoBloqueado p.id p.estado_proyecto)) ∧
    (findBy Proyecto.id t.proyecto db.proyectos = some p →
      t.estado_transaccion = ESTADO_APROBADO →
      destroy_transaccion db t usuario =
        Except.error (ApiError.proyectoBloqueado p.id p.estado_proyecto)) ∧
    (t.estado_transaccion = ESTADO_PENDIENTE →
      ∃ db' t', rechazar_transaccion db t usuario motivo = Except.ok (db', t') ∧
        t'.estado_transaccion = ESTADO_RECHAZADO) ∧
    (t.estado_transaccion ≠ ESTADO_APROBADO →
      ∃ db', destroy_transaccion db t usuario = Except.ok db') := by
  refine ⟨?_, ?_, ?_, ?_, ?_, ?_⟩
  · intro hp
    simp [crear_transaccion, hp, validar_proyecto_no_bloqueado, hlocked]
  · intro hp hpend hne
    simp [aprobar_transaccion, Transaccion.puede_aprobar, hpend, hne, hp,
      validar_proyecto_no_bloqueado, hlocked]
  · intro hp hpend
    simp [actualizar_transaccion_guard, Transaccion.puede_editar, hpend, hp,
      validar_proyecto_no_bloqueado, hlocked]
  · intro hp haprob
    simp [destroy_transaccion, haprob, hp, validar_proyecto_no_bloqueado, hlocked]
  · intro hpend
    exact ⟨_, _, rechazar_pendiente_eq db t usuario motivo hpend, rfl⟩
  · intro hnoaprob
    exact ⟨_, destroy_no_aprobado_eq db t usuario hnoaprob⟩

theorem project_locked_guards_witness :
    crear_transaccion dbL txLNew 200 0 =
      Except.error (ApiError.proyectoBloqueado 2 "completado") ∧
    actualizar_transaccion_guard dbL txL =
      Except.error (ApiError.proyectoBloqueado 2 "completado") ∧
    (∃ db' t', rechazar_transaccion dbL txL 200 none = Except.ok (db', t') ∧
      t'.estado_transaccion = ESTADO_RECHAZADO) := by
  have h := project_locked_guards dbL txL txLNew 200 0 0 none pL (by decide)
  exact ⟨h.1 rfl, h.2.2.1 rfl rfl, h.2.2.2.2.1 rfl⟩

/-- An approved transaction created by user 100. -/
def txA : Transaccion :=
  { txL with id := 60, proyecto := 1, nro_documento := "FAC-A1", estado_transaccion := ESTADO_APROBADO }

/-- C5 counterexample: for a *non-pending* transaction whose creator tries
to approve it, `aprobar_transaccion` raises the segregation-of-duties
error, not the not-pending error — so "fails with TransactionNotPending
whenever the state is not pending" is false as stated. -/
theorem approve_nonpending_by_creator_gets_segregacion :
    txA.estado_transaccion ≠ ESTADO_PENDIENTE ∧ txA.usuario = 100 ∧
    aprobar_transaccion dbW txA 100 0 0 = Except.error ApiError.segregacionFunciones ∧
    ApiError.segregacionFunciones ≠ ApiError.transaccionAprobada := by
  exact ⟨by decide, rfl, rfl, by decide⟩

/-- The field updates `aprobar_transaccion` performs on the approved
transaction row. -/
def marcaAprobada (t : Transaccion) (usuario : Nat) (now : Int) : Transaccion :=
  { t with estado_transaccion := ESTADO_APROBADO, fecha_aprobacion := some now, usuario_aprobador := some usuario }

/-- C5 (amended): approval fails with the segregation-of-duties error
whenever the approver equals the creator (this takes precedence even over
the not-pending check), and fails with the not-pending error whenever the
state is not pending *and the approver differs from the creator*; for a
pending transaction, a distinct approver, an unlocked project and passing
balance / category / regulatory re-checks, approval succeeds: it sets
state `aprobado`, the approver reference and the approval timestamp, adds
the amount to the linked item's executed amount, and appends exactly one
`aprobacion` audit entry. -/
theorem aprobar_transaccion_spec (db : DB) (t : Transaccion) (usuario : Nat) (now today : Int)
    (p : Proyecto) (iid : Nat) (it : Item_Presupuestario) :
    (t.usuario = usuario →
      aprobar_transaccion db t usuario now today = Except.error ApiError.segregacionFunciones) ∧
    (t.estado_transaccion ≠ ESTADO_PENDIENTE → t.usuario ≠ usuario →
      aprobar_transaccion db t usuario now today = Except.error ApiError.transaccionAprobada) ∧
    (t.estado_transaccion = ESTADO_PENDIENTE → t.usuario ≠ usuario →
      findBy Proyecto.id t.proyecto db.proyectos = some p →
      validar_proyecto_no_bloqueado p = Except.ok () →
      t.tipo_transaccion = TIPO_EGRESO →
      t.subitem_presupuestario = none →
      t.item_presupuestario = some iid →
      findBy Item_Presupuestario.id iid db.items = some it →
      it.tiene_saldo_suficiente t.monto_transaccion = true →
      t.categoria_gasto = none →
      validar_cumplimiento_normativo t today = Except.ok () →
      ∃ db', aprobar_transaccion db t usuario now today =
          Except.ok (db', marcaAprobada t usuario now) ∧
        (∃ it', findBy Item_Presupuestario.id iid db'.items = some it' ∧
          it'.monto_ejecutado_item = it.monto_ejecutado_item + t.monto_transaccion) ∧
        db'.logs = db.logs ++ [logAprobacion t.id usuario]) := by
  have hEI : TIPO_EGRESO ≠ TIPO_INGRESO := by decide
  refine ⟨?_, ?_, ?_⟩
  · intro husr
    by_cases hpend : t.estado_transaccion = ESTADO_PENDIENTE <;>
      simp [aprobar_transaccion, Transaccion.puede_aprobar, husr, hpend]
  · intro hnp hne
    simp [aprobar_transaccion, Transaccion.puede_aprobar, hnp, hne]
  · intro hpend hne hp hlock htipo hsubnone hitem hfindit hsaldo hcatnone hnorm
    have heq : aprobar_transaccion db t usuario now today =
        Except.ok ({ db with
          transacciones := updBy Transaccion.id t.id (fun _ => marcaAprobada t usuario now) db.transacciones,
          items := updBy Item_Presupuestario.id iid (sumaEjecItem t.monto_transaccion) db.items,
          proyectos := updBy Proyecto.id t.proyecto (sumaEjecProyecto t.monto_transaccion) db.proyectos,
          logs := db.logs ++ [logAprobacion t.id usuario] },
          marcaAprobada t usuario now) := by
      simp [aprobar_transaccion, Transaccion.puede_aprobar, hpend, hne, hp, hlock, htipo,
        hsubnone, hitem, hfindit, validar_saldo_disponible, hEI, hsaldo, hcatnone, hnorm,
        actualizar_montos_ejecutados, logAprobacion, marcaAprobada]
    refine ⟨_, heq, ⟨sumaEjecItem t.monto_transaccion it, ?_, rfl⟩, rfl⟩
    show findBy Item_Presupuestario.id iid
      (updBy Item_Presupuestario.id iid (sumaEjecItem t.monto_transaccion) db.items) = _
    rw [findBy_updBy Item_Presupuestario.id iid (sumaEjecItem t.monto_transaccion)
      (fun x hx => hx) db.items, hfindit]
    rfl

/-- A small pending expense draft linked to `itW`, creator 100. -/
def txOK : Transaccion :=
  { txC3 with id := 44, monto_transaccion := 1000, nro_documento := "FAC-3" }

theorem aprobar_transaccion_spec_witness :
    ∃ db', aprobar_transaccion dbW txOK 200 5 9 =
        Except.ok (db', marcaAprobada txOK 200 5) ∧
      (∃ it', findBy Item_Presupuestario.id 5 db'.items = some it' ∧
        it'.monto_ejecutado_item = itW.monto_ejecutado_item + txOK.monto_transaccion) ∧
      db'.logs = dbW.logs ++ [logAprobacion txOK.id 200] := by
  exact (aprobar_transaccion_spec dbW txOK 200 5 9 pW 5 itW).2.2 rfl (by decide)
    rfl rfl rfl rfl rfl rfl (by decide) rfl rfl

/-- C6: rejecting a pending transaction succeeds, leaves it `rechazado`
and appends exactly one `rechazo` audit entry; rejecting the result again
raises the not-pending error (so no further audit entry is written). -/
theorem reject_twice_idempotent (db : DB) (t : Transaccion) (u1 u2 : Nat)
    (m1 m2 : Option String) (hpend : t.estado_transaccion = ESTADO_PENDIENTE) :
    ∃ db' t', rechazar_transaccion db t u1 m1 = Except.ok (db', t') ∧
      t'.estado_transaccion = ESTADO_RECHAZADO ∧
      db'.logs = db.logs ++ [logRechazo t.id u1] ∧
      rechazar_transaccion db' t' u2 m2 = Except.error ApiError.transaccionAprobada := by
  refine ⟨_, _, rechazar_pendiente_eq db t u1 m1 hpend, rfl, rfl, ?_⟩
  simp only [rechazar_transaccion]
  rw [if_pos]
  decide

theorem reject_twice_idempotent_witness :
    ∃ db' t', rechazar_transaccion dbW txW 200 (some "mal documentada") = Except.ok (db', t') ∧
      t'.estado_transaccion = ESTADO_RECHAZADO ∧
      db'.logs = dbW.logs ++ [logRechazo txW.id 200] ∧
      rechazar_transaccion db' t' 201 none = Except.error ApiError.transaccionAprobada := by
  exact reject_twice_idempotent dbW txW 200 201 (some "mal documentada") none rfl

/-- C10: `rechazar_transaccion` never records the optional reason: the
result is the same for any two `motivo` values, and on a pending
transaction it changes only the transaction's state (to `rechazado`) and
appends one fixed-shape `rechazo` audit row — items, subitems and projects
are untouched, and neither the transaction nor the audit row has any field
holding the reason. -/
theorem reject_ignores_motivo (db : DB) (t : Transaccion) (usuario : Nat)
    (m1 m2 : Option String) :
    rechazar_transaccion db t usuario m1 = rechazar_transaccion db t usuario m2 ∧
    (t.estado_transaccion = ESTADO_PENDIENTE →
      ∃ db', rechazar_transaccion db t usuario m1 =
          Except.ok (db', { t with estado_transaccion := ESTADO_RECHAZADO }) ∧
        db'.items = db.items ∧ db'.subitems = db.subitems ∧ db'.proyectos = db.proyectos ∧
        db'.evidencias = db.evidencias ∧ db'.transaccion_evidencias = db.transaccion_evidencias ∧
        db'.logs = db.logs ++ [logRechazo t.id usuario] ∧
        db'.transacciones = updBy Transaccion.id t.id
          (fun _ => { t with estado_transaccion := ESTADO_RECHAZADO }) db.transacciones) := by
  refine ⟨rfl, ?_⟩
  intro hpend
  exact ⟨_, rechazar_pendiente_eq db t usuario m1 hpend, rfl, rfl, rfl, rfl, rfl, rfl, rfl⟩

theorem reject_ignores_motivo_witness :
    rechazar_transaccion dbW txW 200 (some "x") = rechazar_transaccion dbW txW 200 none ∧
    (∃ db', rechazar_transaccion dbW txW 200 (some "x") =
        Except.ok (db', { txW with estado_transaccion := ESTADO_RECHAZADO }) ∧
      db'.items = dbW.items ∧ db'.subitems = dbW.subitems ∧ db'.proyectos = dbW.proyectos ∧
      db'.evidencias = dbW.evidencias ∧ db'.transaccion_evidencias = dbW.transaccion_evidencias ∧
      db'.logs = dbW.logs ++ [logRechazo txW.id 200] ∧
      db'.transacciones = updBy Transaccion.id txW.id
        (fun _ => { txW with estado_transaccion := ESTADO_RECHAZADO }) dbW.transacciones) := by
  have h := reject_ignores_motivo dbW txW 200 (some "x") none
  exact ⟨h.1, h.2 rfl⟩

/-- Filters commute (used to show the update-time duplicate check equals
the create-time check run with the updated transaction removed). -/
theorem filter_comm_list {α : Type} (p q : α → Bool) (l : List α) :
    (l.filter p).filter q = (l.filter q).filter p := by
  induction l with
  | nil => rfl
  | cons a l ih =>
    by_cases hp : p a <;> by_cases hq : q a <;> simp [hp, hq, ih]

/-- C7: if any stored transaction — whatever its state — shares
(proveedor, nro_documento) with the draft, `crear_transaccion` fails with
the duplicate error carrying the id of such an existing transaction; and
the duplicate check run at update time with an excluded id behaves exactly
like the create-time check on the snapshot with that transaction removed
(it excludes only the transaction being updated). -/
theorem duplicate_detection (db : DB) (data : Transaccion) (usuario : Nat) (today : Int)
    (p : Proyecto) (hp : findBy Proyecto.id data.proyecto db.proyectos = some p)
    (hlock : validar_proyecto_no_bloqueado p = Except.ok ()) :
    (db.transacciones.filter
        (fun (x : Transaccion) => x.proveedor == data.proveedor && x.nro_documento == data.nro_documento) ≠ [] →
      ∃ e, crear_transaccion db data usuario today =
          Except.error (ApiError.transaccionDuplicada e.id) ∧
        e ∈ db.transacciones ∧ e.proveedor = data.proveedor ∧
        e.nro_documento = data.nro_documento) ∧
    (∀ (proveedor : Nat) (nro : String) (tid : Nat),
      validar_duplicidad db proveedor nro (some tid) =
        validar_duplicidad
          { db with transacciones := db.transacciones.filter (fun (x : Transaccion) => x.id != tid) }
          proveedor nro none) := by
  constructor
  · intro hne
    rcases hq : db.transacciones.filter
        (fun (x : Transaccion) => x.proveedor == data.proveedor && x.nro_documento == data.nro_documento) with _ | ⟨e, rest⟩
    · exact absurd hq hne
    · have hmem : e ∈ db.transacciones.filter
          (fun (x : Transaccion) => x.proveedor == data.proveedor && x.nro_documento == data.nro_documento) := by
        rw [hq]; exact List.mem_cons_self e rest
      have hmem' := List.mem_filter.mp hmem
      have hprov : e.proveedor = data.proveedor := by
        have := hmem'.2
        simp at this
        exact this.1
      have hnro : e.nro_documento = data.nro_documento := by
        have := hmem'.2
        simp at this
        exact this.2
      refine ⟨e, ?_, hmem'.1, hprov, hnro⟩
      have hdup : validar_duplicidad db data.proveedor data.nro_documento none =
          Except.error (ApiError.transaccionDuplicada e.id) := by
        simp [validar_duplicidad, hq]
      simp [crear_transaccion, hp, hlock, hdup]
  · intro proveedor nro tid
    simp only [validar_duplicidad]
    rw [filter_comm_list]

/-- An existing *rejected* transaction holding the pair
(proveedor 7, "FAC-1"). -/
def txRech : Transaccion :=
  { txW with id := 70, estado_transaccion := ESTADO_RECHAZADO }

/-- Snapshot in which that rejected transaction already exists. -/
def dbDup : DB :=
  { dbW with transacciones := [txRech] }

/-- A fresh draft re-using (proveedor 7, "FAC-1"). -/
def txDup : Transaccion :=
  { txW with id := 77 }

theorem duplicate_detection_witness :
    ∃ e, crear_transaccion dbDup txDup 100 0 =
        Except.error (ApiError.transaccionDuplicada e.id) ∧
      e ∈ dbDup.transacciones ∧ e.proveedor = txDup.proveedor ∧
      e.nro_documento = txDup.nro_documento := by
  exact (duplicate_detection dbDup txDup 100 0 pW rfl rfl).1 (by decide)

/-- C8: the pre-rendition audit finds no error exactly when the project
has no pending transaction and no approved transaction without an active
evidence link; when it finds errors, `generar_pre_rendicion` returns
`valido = false` carrying those errors and `cerrar_rendicion` fails with
`RendicionIncompleta` (producing no new state); when it finds none,
`cerrar_rendicion` moves the project to the locked state `completado`. -/
theorem pre_close_gates_close (db : DB) (p : Proyecto) (usuario : Nat) :
    ((hallazgos_pre_rendicion db p).1 = [] ↔
      ((db.transacciones.filter (fun (t : Transaccion) => t.proyecto == p.id)).filter
        (fun (t : Transaccion) => t.estado_transaccion == ESTADO_PENDIENTE)) = [] ∧
      (((db.transacciones.filter (fun (t : Transaccion) => t.proyecto == p.id)).filter
        (fun (t : Transaccion) => t.estado_transaccion == ESTADO_APROBADO)).filter
        (fun (t : Transaccion) => (evidencias_activas_de db t.id).isEmpty)) = []) ∧
    ((hallazgos_pre_rendicion db p).1 ≠ [] →
      generar_pre_rendicion db p =
        { errores := (hallazgos_pre_rendicion db p).1, advertencias := [], valido := false } ∧
      cerrar_rendicion db p usuario =
        Except.error (ApiError.rendicionIncompleta (hallazgos_pre_rendicion db p).1)) ∧
    ((hallazgos_pre_rendicion db p).1 = [] →
      ∃ db', cerrar_rendicion db p usuario =
          Except.ok (db', { p with estado_proyecto := "completado" }) ∧
        ("completado" : String) ∈ ESTADOS_PROYECTO_BLOQUEADOS) := by
  refine ⟨?_, ?_, ?_⟩
  · simp only [hallazgos_pre_rendicion]
    by_cases h1 : ((db.transacciones.filter (fun (t : Transaccion) => t.proyecto == p.id)).filter
        (fun (t : Transaccion) => t.estado_transaccion == ESTADO_PENDIENTE)) = [] <;>
      by_cases h2 : (((db.transacciones.filter (fun (t : Transaccion) => t.proyecto == p.id)).filter
        (fun (t : Transaccion) => t.estado_transaccion == ESTADO_APROBADO)).filter
        (fun (t : Transaccion) => (evidencias_activas_de db t.id).isEmpty)) = [] <;>
      simp [h1, h2]
  · intro hne
    have hval : validar_integridad_pre_rendicion db p =
        Except.error (ApiError.rendicionIncompleta (hallazgos_pre_rendicion db p).1) := by
      rcases hh : hallazgos_pre_rendicion db p with ⟨errs, advs⟩
      rw [hh] at hne
      simp only at hne
      simp [validar_integridad_pre_rendicion, hh, hne]
    exact ⟨by simp [generar_pre_rendicion, hval], by simp [cerrar_rendicion, hval]⟩
  · intro hnil
    have hval : validar_integridad_pre_rendicion db p =
        Except.ok { errores := [], advertencias := (hallazgos_pre_rendicion db p).2, valido := true } := by
      rcases hh : hallazgos_pre_rendicion db p with ⟨errs, advs⟩
      rw [hh] at hnil
      simp only at hnil
      simp [validar_integridad_pre_rendicion, hh, hnil]
    refine ⟨{ db with proyectos := updBy Proyecto.id p.id (fun _ => { p with estado_proyecto := "completado" }) db.proyectos }, ?_, by decide⟩
    simp [cerrar_rendicion, hval]

/-- An approved transaction under `pW` with no evidence link. -/
def txA8 : Transaccion :=
  { txW with id := 61, nro_documento := "FAC-8", estado_transaccion := ESTADO_APROBADO }

/-- Snapshot with exactly that approved, evidence-less transaction. -/
def dbC8 : DB :=
  { dbW with transacciones := [txA8] }

theorem pre_close_gates_close_witness :
    generar_pre_rendicion dbC8 pW =
      { errores := [AuditFinding.sinEvidencia [61]], advertencias := [], valido := false } ∧
    cerrar_rendicion dbC8 pW 100 =
      Except.error (ApiError.rendicionIncompleta [AuditFinding.sinEvidencia [61]]) := by
  have h := (pre_close_gates_close dbC8 pW 100).2.1 (by decide)
  exact ⟨h.1, h.2⟩

/-- Spec-side quantity (named after the spec's words, *not* the source):
the sum of the amounts of approved **expense** transactions of the
project.  The source's reconciliation check does not restrict to
expenses; this definition exists only to state the claim as written. -/
def suma_egresos_aprobados_spec (db : DB) (p : Proyecto) : Int :=
  (((db.transacciones.filter (fun (t : Transaccion) => t.proyecto == p.id)).filter
    (fun (t : Transaccion) => t.estado_transaccion == ESTADO_APROBADO && t.tipo_transaccion == TIPO_EGRESO)).map
    (fun (t : Transaccion) => t.monto_transaccion)).sum

/-- Source-side quantity: the sum `validar_integridad_pre_rendicion`
actually compares against the cached executed total — over *all* approved
transactions of the project, income included. -/
def suma_aprobadas (db : DB) (p : Proyecto) : Int :=
  (((db.transacciones.filter (fun (t : Transaccion) => t.proyecto == p.id)).filter
    (fun (t : Transaccion) => t.estado_transaccion == ESTADO_APROBADO)).map
    (fun (t : Transaccion) => t.monto_transaccion)).sum

/-- An approved *income* transaction of amount 100 under `pW`, with an
active evidence link. -/
def txI9 : Transaccion :=
  { txW with id := 80, nro_documento := "FAC-9", monto_transaccion := 100, estado_transaccion := ESTADO_APROBADO, tipo_transaccion := TIPO_INGRESO }

/-- Snapshot for the C9 counterexample: only `txI9`, evidenced. -/
def dbC9 : DB :=
  { proyectos := [pW], items := [itW], subitems := [suW], transacciones := [txI9],
    evidencias := [{ id := 1, eliminado := false }],
    transaccion_evidencias := [{ transaccion := 80, evidencia := 1 }], logs := [] }

/-- C9 counterexample: in `dbC9` the sum of approved *expense* amounts
(0) equals the project's cached executed total (0), yet the audit's
warning list contains a reconciliation-drift warning — because the source
sums *all* approved transactions (here the income of 100).  So "exactly
when the sum of approved expense amounts differs" is false as stated. -/
theorem drift_warning_counts_income :
    suma_egresos_aprobados_spec dbC9 pW = pW.monto_ejecutado_proyecto ∧
    AuditFinding.descuadre pW.monto_ejecutado_proyecto 100 ∈
      (generar_pre_rendicion dbC9 pW).advertencias := by
  exact ⟨by decide, by decide⟩

/-- C9 (amended): when the audit finds no errors, `generar_pre_rendicion`
returns a structured result with `valido = true` whose warning list
contains the reconciliation-drift warning exactly when the sum of the
amounts of *all* approved transactions of the project (income and expense
alike) differs from the project's cached executed total — and any drift
warning present carries exactly that cached total and that sum.  (When
errors exist, the returned warning list is empty.) -/
theorem drift_warning_iff_all_approved_sum (db : DB) (p : Proyecto)
    (hnoerr : (hallazgos_pre_rendicion db p).1 = []) :
    (generar_pre_rendicion db p).valido = true ∧
    (AuditFinding.descuadre p.monto_ejecutado_proyecto (suma_aprobadas db p) ∈
        (generar_pre_rendicion db p).advertencias ↔
      suma_aprobadas db p ≠ p.monto_ejecutado_proyecto) ∧
    (∀ e a, AuditFinding.descuadre e a ∈ (generar_pre_rendicion db p).advertencias →
      e = p.monto_ejecutado_proyecto ∧ a = suma_aprobadas db p) := by
  have hG : generar_pre_rendicion db p =
      { errores := [], advertencias := (hallazgos_pre_rendicion db p).2, valido := true } := by
    rcases hh : hallazgos_pre_rendicion db p with ⟨errs, advs⟩
    rw [hh] at hnoerr
    simp only at hnoerr
    simp [generar_pre_rendicion, validar_integridad_pre_rendicion, hh, hnoerr]
  refine ⟨by rw [hG], ?_, ?_⟩
  · rw [hG]
    show AuditFinding.descuadre _ _ ∈ (hallazgos_pre_rendicion db p).2 ↔ _
    simp only [hallazgos_pre_rendicion, suma_aprobadas]
    by_cases hrech : ((db.transacciones.filter (fun (t : Transaccion) => t.proyecto == p.id)).filter
        (fun (t : Transaccion) => t.estado_transaccion == ESTADO_RECHAZADO)).isEmpty <;>
      by_cases hd : (((db.transacciones.filter (fun (t : Transaccion) => t.proyecto == p.id)).filter
          (fun (t : Transaccion) => t.estado_transaccion == ESTADO_APROBADO)).map
          (fun (t : Transaccion) => t.monto_transaccion)).sum = p.monto_ejecutado_proyecto <;>
        simp [hrech, hd]
  · intro e a
    rw [hG]
    show AuditFinding.descuadre e a ∈ (hallazgos_pre_rendicion db p).2 → _
    simp only [hallazgos_pre_rendicion, suma_aprobadas]
    by_cases hrech : ((db.transacciones.filter (fun (t : Transaccion) => t.proyecto == p.id)).filter
        (fun (t : Transaccion) => t.estado_transaccion == ESTADO_RECHAZADO)).isEmpty <;>
      by_cases hd : (((db.transacciones.filter (fun (t : Transaccion) => t.proyecto == p.id)).filter
          (fun (t : Transaccion) => t.estado_transaccion == ESTADO_APROBADO)).map
          (fun (t : Transaccion) => t.monto_transaccion)).sum = p.monto_ejecutado_proyecto <;>
        simp [hrech, hd]

theorem drift_warning_iff_all_approved_sum_witness :
    (generar_pre_rendicion dbC9 pW).valido = true ∧
    (AuditFinding.descuadre pW.monto_ejecutado_proyecto (suma_aprobadas dbC9 pW) ∈
        (generar_pre_rendicion dbC9 pW).advertencias ↔
      suma_aprobadas dbC9 pW ≠ pW.monto_ejecutado_proyecto) := by
  have h := drift_warning_iff_all_approved_sum dbC9 pW (by decide)
  exact ⟨h.1, h.2.1⟩

end SumArte
